import Mathlib

/-!
# Mint module parameters (`x/mint/internal/types/params.go`)

A shallow embedding of the minting parameter model: the `Params` record, its
constructors, the validator `ValidateParams`, the text `Params.String`, the key
mapping `ParamSetPairs`, the bootstrap override table `FixupInflation` and the
total token ceiling `FixupTotalTokenNumber`, followed by the properties proved
about them.
-/

set_option autoImplicit false

namespace Mint

/-! ## The decimal and integer types of the SDK -/

/-- Modelled from the spec: the number of fractional digits of the SDK decimal
type `sdk.Dec`, whose declaration (package `cosmos-sdk/types`) is not part of
the source tree; the SDK fixes it to 18. -/
def Precision : Nat := 18

/-- Modelled from the spec: the fixed-precision decimal `sdk.Dec`, declared in
package `cosmos-sdk/types` which is not part of the source tree. A decimal wraps
an arbitrary-precision integer `Int` holding the value scaled by
`10 ^ Precision`. Only decimals that hold a value are modelled: the zero value
of the Go type, whose integer is a nil pointer, is not a decimal of the spec. -/
structure Dec where
  Int : ℤ
  deriving DecidableEq, Repr

/-- The rational number a decimal stands for. -/
def Dec.toRat (d : Dec) : ℚ := (d.Int : ℚ) / (10 : ℚ) ^ Precision

/-- Modelled from the spec: `sdk.OneDec()`, the decimal 1. -/
def OneDec : Dec := ⟨10 ^ Precision⟩

/-- Modelled from the spec: `sdk.NewDecWithPrec(i, prec)`, the decimal
`i / 10 ^ prec`. The SDK aborts unless `0 ≤ prec ≤ Precision`; the caller
supplies the evidence that it does not. -/
def NewDecWithPrec (i : ℤ) (prec : Nat) (_h : prec ≤ Precision) : Dec :=
  ⟨i * 10 ^ (Precision - prec)⟩

/-- Modelled from the spec: `Dec.IsNegative`, the sign test on the scaled integer. -/
def Dec.IsNegative (d : Dec) : Bool := decide (d.Int < 0)

/-- Modelled from the spec: `Dec.GT`, comparison of the scaled integers. -/
def Dec.GT (d d2 : Dec) : Bool := decide (d.Int > d2.Int)

/-- Modelled from the spec: `Dec.LT`, comparison of the scaled integers. -/
def Dec.LT (d d2 : Dec) : Bool := decide (d.Int < d2.Int)

/-- Modelled from the spec: `Dec.Neg`, negation of the scaled integer. -/
def Dec.Neg (d : Dec) : Dec := ⟨-d.Int⟩

/-- Modelled from the spec: the decimal text of an arbitrary-precision integer
(`big.Int.MarshalText`). -/
def MarshalText (x : ℤ) : List Char :=
  if x < 0 then '-' :: (Nat.repr x.natAbs).data else (Nat.repr x.natAbs).data

/-- Modelled from the spec: `Dec.String`, the fixed-precision textual encoding
of a decimal: an optional sign, the integer digits (a single `0` when there are
none), a point and exactly `Precision` fractional digits. -/
def Dec.String (d : Dec) : String :=
  let isNeg := d.IsNegative
  let d := if isNeg then d.Neg else d
  let bzInt := MarshalText d.Int
  let inputSize := bzInt.length
  let bzStr : List Char :=
    if inputSize ≤ Precision then
      '0' :: '.' :: (List.replicate (Precision - inputSize) '0' ++ bzInt)
    else
      let decPointPlace := inputSize - Precision
      bzInt.take decPointPlace ++ '.' :: bzInt.drop decPointPlace
  if isNeg then ⟨'-' :: bzStr⟩ else ⟨bzStr⟩

/-- Wrap-around of an integer into the signed 64-bit range, the conversion of a
value to `int64`. -/
def toInt64 (x : ℤ) : ℤ := (x + 2 ^ 63) % 2 ^ 64 - 2 ^ 63

/-- Modelled from the spec: `sdk.NewInt(n)`, the arbitrary-precision integer
holding the `int64` argument `n`. -/
def NewInt (n : ℤ) : ℤ := toInt64 n

/-- The Go `error` interface value: `none` is `nil`, `some msg` an error whose
text is `msg`. -/
abbrev error := Option String

/-- The error built by `fmt.Errorf` from the formatted text. -/
def Errorf (msg : String) : error := some msg

/-! ## Parameter store keys -/

def KeyMintDenom : String := "MintDenom"
def KeyInflationRateChange : String := "InflationRateChange"
def KeyInflationMax : String := "InflationMax"
def KeyInflationMin : String := "InflationMin"
def KeyGoalBonded : String := "GoalBonded"
def KeyBlocksPerYear : String := "BlocksPerYear"

/-! ## The parameter record -/

/-- The mint parameters. `BlocksPerYear` is a `uint64`. -/
structure Params where
  MintDenom : String
  InflationRateChange : Dec
  InflationMax : Dec
  InflationMin : Dec
  GoalBonded : Dec
  BlocksPerYear : Nat
  deriving DecidableEq, Repr

def NewParams (mintDenom : String) (inflationRateChange inflationMax
    inflationMin goalBonded : Dec) (blocksPerYear : Nat) : Params :=
  { MintDenom := mintDenom
    InflationRateChange := inflationRateChange
    InflationMax := inflationMax
    InflationMin := inflationMin
    GoalBonded := goalBonded
    BlocksPerYear := blocksPerYear }

/-- The default minting module parameters. The bond denomination
`sdk.DefaultBondDenom` is a constant of the SDK and is taken as a parameter. -/
def DefaultParams (DefaultBondDenom : String) : Params :=
  { MintDenom := DefaultBondDenom
    InflationRateChange := NewDecWithPrec 13 2 (by decide)
    InflationMax := NewDecWithPrec 20 2 (by decide)
    InflationMin := NewDecWithPrec 7 2 (by decide)
    GoalBonded := NewDecWithPrec 67 2 (by decide)
    BlocksPerYear := (60 * 60 * 8766 / 5) % 2 ^ 64 }

/-- Validation of a parameter set: the four checks in source order, the first
failing one deciding the error. -/
def ValidateParams (params : Params) : error :=
  if params.GoalBonded.IsNegative then
    Errorf ("mint parameter GoalBonded should be positive, is " ++ params.GoalBonded.String ++ " ")
  else if params.GoalBonded.GT OneDec then
    Errorf ("mint parameter GoalBonded must be <= 1, is " ++ params.GoalBonded.String)
  else if params.InflationMax.LT params.InflationMin then
    Errorf "mint parameter Max inflation must be greater than or equal to min inflation"
  else if params.MintDenom = "" then
    Errorf "mint parameter MintDenom can't be an empty string"
  else
    none

/-- The override table, a map from year index to inflation rate, as the list of
the entries of the map literal. -/
def FixupInflationEntries : List (ℤ × Dec) :=
  [ (0, NewDecWithPrec 300 4 (by decide)),
    (1, NewDecWithPrec 250 4 (by decide)),
    (2, NewDecWithPrec 150 4 (by decide)),
    (3, NewDecWithPrec 125 4 (by decide)),
    (4, NewDecWithPrec 100 4 (by decide)),
    (5, NewDecWithPrec 75 4 (by decide)),
    (6, NewDecWithPrec 0 4 (by decide)) ]

/-- Lookup in the map `FixupInflation`: the entry of a year index, if any. -/
def FixupInflation (year : ℤ) : Option Dec :=
  FixupInflationEntries.lookup year

/-- The total token ceiling, in `umdu`. -/
def FixupTotalTokenNumber : ℤ := NewInt (200000000 * 1000000)

/-- The text `sub` occurs inside the text `s`. -/
def Occurs (sub s : String) : Prop := ∃ pre post : String, s = pre ++ sub ++ post

/-! ## Rendering and the key mapping -/

/-- The text of a parameter set: the format of `fmt.Sprintf` with each verb
replaced by the rendering of its argument, `%s` by the text of a string or of a
decimal, `%d` by the decimal digits of the `uint64`. -/
def Params.String (p : Params) : String :=
  "Minting Params:\n  Mint Denom:             " ++ p.MintDenom ++
  "\n  Inflation Rate Change:  " ++ p.InflationRateChange.String ++
  "\n  Inflation Max:          " ++ p.InflationMax.String ++
  "\n  Inflation Min:          " ++ p.InflationMin.String ++
  "\n  Goal Bonded:            " ++ p.GoalBonded.String ++
  "\n  Blocks Per Year:        " ++ Nat.repr p.BlocksPerYear ++ "\n"

/-- The lines of a text: the pieces between its line feeds. -/
def lines (s : String) : List (List Char) := s.data.splitOn '\n'

/-- The six labelled lines of the text of a parameter set, as the claim about
`String` words them: a fixed label followed by the rendering of the field. -/
def labelledLines (p : Params) : List String :=
  [ "  Mint Denom:             " ++ p.MintDenom,
    "  Inflation Rate Change:  " ++ p.InflationRateChange.String,
    "  Inflation Max:          " ++ p.InflationMax.String,
    "  Inflation Min:          " ++ p.InflationMin.String,
    "  Goal Bonded:            " ++ p.GoalBonded.String,
    "  Blocks Per Year:        " ++ Nat.repr p.BlocksPerYear ]

/-- The characters a rendered integer or decimal is made of. -/
def decimalAlphabet : List Char := "0123456789abcdef*-.".data

/-- The default parameters with a denomination that holds a line feed. -/
def sampleTwoLine : Params := DefaultParams "a\nb"

/-- A pointer to one field of the `Params` record of the receiver, `&p.F`,
identified by the field it addresses. -/
inductive FieldPtr
  | MintDenom
  | InflationRateChange
  | InflationMax
  | InflationMin
  | GoalBonded
  | BlocksPerYear
  deriving DecidableEq, Repr

/-- The type a pointer points to: `string`, `sdk.Dec` or `uint64`. -/
@[reducible] def FieldPtr.Elem : FieldPtr → Type
  | .MintDenom => String
  | .InflationRateChange => Dec
  | .InflationMax => Dec
  | .InflationMin => Dec
  | .GoalBonded => Dec
  | .BlocksPerYear => Nat

/-- Reading through a pointer: the addressed field of the record it points into. -/
def FieldPtr.load (p : Params) : (r : FieldPtr) → r.Elem
  | .MintDenom => p.MintDenom
  | .InflationRateChange => p.InflationRateChange
  | .InflationMax => p.InflationMax
  | .InflationMin => p.InflationMin
  | .GoalBonded => p.GoalBonded
  | .BlocksPerYear => p.BlocksPerYear

/-- Writing through a pointer: the record it points into after the in-place
update of the addressed field. -/
def FieldPtr.store (p : Params) : (r : FieldPtr) → r.Elem → Params
  | .MintDenom, v => { p with MintDenom := v }
  | .InflationRateChange, v => { p with InflationRateChange := v }
  | .InflationMax, v => { p with InflationMax := v }
  | .InflationMin, v => { p with InflationMin := v }
  | .GoalBonded, v => { p with GoalBonded := v }
  | .BlocksPerYear, v => { p with BlocksPerYear := v }

/-- Modelled from the spec: `params.ParamSetPair`, declared in package
`cosmos-sdk/x/params` which is not part of the source tree: a byte-string key
and a reference to the value stored under it. -/
structure ParamSetPair where
  Key : String
  Value : FieldPtr
  deriving DecidableEq, Repr

/-- The key mapping of the receiver `p *Params`. The pairs hold the addresses of
the fields of the receiver and do not read them, so the list is the same for
every record the receiver points to. -/
def ParamSetPairs : List ParamSetPair :=
  [ { Key := KeyMintDenom, Value := .MintDenom },
    { Key := KeyInflationRateChange, Value := .InflationRateChange },
    { Key := KeyInflationMax, Value := .InflationMax },
    { Key := KeyInflationMin, Value := .InflationMin },
    { Key := KeyGoalBonded, Value := .GoalBonded },
    { Key := KeyBlocksPerYear, Value := .BlocksPerYear } ]

/-- The reference paired with a key, if the key is one of the mapping. -/
def refOfKey (key : String) : Option FieldPtr :=
  (ParamSetPairs.find? (fun kv => kv.Key = key)).map ParamSetPair.Value

/-- Reading every field of `src` through the references of `ParamSetPairs` and
writing the value read through the same reference into `dst`, pair after pair. -/
def writeBack (src dst : Params) : Params :=
  ParamSetPairs.foldl (fun acc kv => FieldPtr.store acc kv.Value (FieldPtr.load src kv.Value)) dst

/-! ## Sample parameter sets -/

/-- A set that passes every check, on the boundary `GoalBonded = 1`,
`InflationMax = InflationMin`. -/
def sampleBoundary : Params :=
  NewParams "umdu" ⟨-5⟩ (NewDecWithPrec 7 2 (by decide)) (NewDecWithPrec 7 2 (by decide)) OneDec 0

/-- A set with `GoalBonded = -0.01` whose other checked fields are invalid too. -/
def sampleNegative : Params :=
  NewParams "" ⟨0⟩ (NewDecWithPrec 5 2 (by decide)) (NewDecWithPrec 10 2 (by decide))
    (NewDecWithPrec (-1) 2 (by decide)) 0

/-- A set with `GoalBonded = 1.01` whose other checked fields are invalid too. -/
def sampleAbove : Params :=
  NewParams "" ⟨0⟩ (NewDecWithPrec 5 2 (by decide)) (NewDecWithPrec 10 2 (by decide))
    (NewDecWithPrec 101 2 (by decide)) 0

/-- A set with `InflationMax = 0.05 < InflationMin = 0.10`, a valid `GoalBonded`
and an empty denomination. -/
def sampleRange : Params :=
  NewParams "" ⟨0⟩ (NewDecWithPrec 5 2 (by decide)) (NewDecWithPrec 10 2 (by decide))
    (NewDecWithPrec 67 2 (by decide)) 0

/-- A set whose only defect is the empty denomination. -/
def sampleDenom : Params :=
  NewParams "" ⟨0⟩ (NewDecWithPrec 20 2 (by decide)) (NewDecWithPrec 7 2 (by decide))
    (NewDecWithPrec 67 2 (by decide)) 0

/-- A set that passes the four checks with `BlocksPerYear = 0`,
`InflationRateChange = -0.13`, `InflationMax = -0.05` and `InflationMin = -0.10`. -/
def sampleUnchecked : Params :=
  NewParams "umdu" (NewDecWithPrec (-13) 2 (by decide)) (NewDecWithPrec (-5) 2 (by decide))
    (NewDecWithPrec (-10) 2 (by decide)) (NewDecWithPrec 67 2 (by decide)) 0

/-! ## The decimal order read on the values -/

theorem Dec.ten_pow_pos : (0 : ℚ) < (10 : ℚ) ^ Precision := by positivity

theorem Dec.isNegative_iff (d : Dec) : d.IsNegative = true ↔ d.toRat < 0 := by
  unfold Dec.IsNegative Dec.toRat
  rw [decide_eq_true_iff, div_neg_iff]
  constructor
  · intro h
    exact Or.inr ⟨by exact_mod_cast h, Dec.ten_pow_pos⟩
  · rintro (⟨_, h⟩ | ⟨h, _⟩)
    · exact absurd h (not_lt.mpr Dec.ten_pow_pos.le)
    · exact_mod_cast h

theorem Dec.lt_iff (a b : Dec) : a.LT b = true ↔ a.toRat < b.toRat := by
  unfold Dec.LT Dec.toRat
  rw [decide_eq_true_iff, div_lt_div_iff_of_pos_right Dec.ten_pow_pos]
  exact Int.cast_lt.symm

theorem Dec.toRat_one : OneDec.toRat = 1 := by
  unfold OneDec Dec.toRat
  push_cast
  exact div_self Dec.ten_pow_pos.ne.symm

theorem Dec.gt_one_iff (d : Dec) : d.GT OneDec = true ↔ 1 < d.toRat := by
  have h := Dec.lt_iff OneDec d
  rw [Dec.toRat_one] at h
  rw [← h]
  unfold Dec.GT Dec.LT
  simp

/-! ## The four outcomes of the validator -/

theorem validate_negative (p : Params) (h : p.GoalBonded.IsNegative = true) :
    ValidateParams p =
      some ("mint parameter GoalBonded should be positive, is " ++ p.GoalBonded.String ++ " ") := by
  simp [ValidateParams, Errorf, h]

theorem validate_above_one (p : Params) (h1 : p.GoalBonded.IsNegative = false)
    (h2 : p.GoalBonded.GT OneDec = true) :
    ValidateParams p =
      some ("mint parameter GoalBonded must be <= 1, is " ++ p.GoalBonded.String) := by
  simp [ValidateParams, Errorf, h1, h2]

theorem validate_range (p : Params) (h1 : p.GoalBonded.IsNegative = false)
    (h2 : p.GoalBonded.GT OneDec = false) (h3 : p.InflationMax.LT p.InflationMin = true) :
    ValidateParams p =
      some "mint parameter Max inflation must be greater than or equal to min inflation" := by
  simp [ValidateParams, Errorf, h1, h2, h3]

theorem validate_denom (p : Params) (h1 : p.GoalBonded.IsNegative = false)
    (h2 : p.GoalBonded.GT OneDec = false) (h3 : p.InflationMax.LT p.InflationMin = false)
    (h4 : p.MintDenom = "") :
    ValidateParams p = some "mint parameter MintDenom can't be an empty string" := by
  simp [ValidateParams, Errorf, h1, h2, h3, h4]

theorem validate_ok (p : Params) (h1 : p.GoalBonded.IsNegative = false)
    (h2 : p.GoalBonded.GT OneDec = false) (h3 : p.InflationMax.LT p.InflationMin = false)
    (h4 : p.MintDenom ≠ "") :
    ValidateParams p = none := by
  simp [ValidateParams, h1, h2, h3, h4]

theorem Dec.isNegative_false_iff (d : Dec) : d.IsNegative = false ↔ 0 ≤ d.toRat := by
  rw [← not_lt, ← Dec.isNegative_iff, Bool.not_eq_true]

theorem Dec.gt_one_false_iff (d : Dec) : d.GT OneDec = false ↔ d.toRat ≤ 1 := by
  rw [← not_lt, ← Dec.gt_one_iff, Bool.not_eq_true]

theorem Dec.lt_false_iff (a b : Dec) : a.LT b = false ↔ b.toRat ≤ a.toRat := by
  rw [← not_lt, ← Dec.lt_iff, Bool.not_eq_true]

/-- The validator accepts exactly when its four checks pass, read on the values. -/
theorem validate_nil_iff (p : Params) :
    ValidateParams p = none ↔
      0 ≤ p.GoalBonded.toRat ∧ p.GoalBonded.toRat ≤ 1 ∧
        p.InflationMin.toRat ≤ p.InflationMax.toRat ∧ p.MintDenom ≠ "" := by
  rw [← Dec.isNegative_false_iff, ← Dec.gt_one_false_iff, ← Dec.lt_false_iff]
  constructor
  · intro h
    cases h1 : p.GoalBonded.IsNegative
    · cases h2 : p.GoalBonded.GT OneDec
      · cases h3 : p.InflationMax.LT p.InflationMin
        · refine ⟨rfl, rfl, rfl, fun h4 => ?_⟩
          rw [validate_denom p h1 h2 h3 h4] at h
          exact Option.noConfusion h
        · rw [validate_range p h1 h2 h3] at h
          exact Option.noConfusion h
      · rw [validate_above_one p h1 h2] at h
        exact Option.noConfusion h
    · rw [validate_negative p h1] at h
      exact Option.noConfusion h
  · rintro ⟨h1, h2, h3, h4⟩
    exact validate_ok p h1 h2 h3 h4

/-! ## The characters of a rendered decimal -/

theorem ite_ne_char {c : Prop} [Decidable c] {a b x : Char} (ha : a ≠ x) (hb : b ≠ x) :
    (if c then a else b) ≠ x := by
  split <;> assumption

theorem digitChar_ne_less (n : Nat) : Nat.digitChar n ≠ '<' := by
  unfold Nat.digitChar
  repeat' (first | decide | apply ite_ne_char)

theorem toDigitsCore_no_less (f : Nat) : ∀ (n : Nat) (ds : List Char),
    '<' ∉ ds → '<' ∉ Nat.toDigitsCore 10 f n ds := by
  induction f with
  | zero => intro n ds h; simpa [Nat.toDigitsCore] using h
  | succ f ih =>
    intro n ds h
    have hcons : '<' ∉ Nat.digitChar (n % 10) :: ds := by
      simp only [List.mem_cons, not_or]
      exact ⟨(digitChar_ne_less _).symm, h⟩
    simp only [Nat.toDigitsCore]
    split_ifs
    · exact hcons
    · exact ih _ _ hcons

theorem MarshalText_no_less (x : ℤ) : '<' ∉ MarshalText x := by
  have h : '<' ∉ (Nat.repr x.natAbs).data := by
    simpa [Nat.repr, Nat.toDigits, List.asString] using
      toDigitsCore_no_less (x.natAbs + 1) x.natAbs [] (by simp)
  unfold MarshalText
  split_ifs
  · simp only [List.mem_cons, not_or]
    exact ⟨by decide, h⟩
  · exact h

theorem padded_no_less (l : List Char) (n : Nat) (h : '<' ∉ l) :
    '<' ∉ '0' :: '.' :: (List.replicate n '0' ++ l) := by
  simp only [List.mem_cons, List.mem_append, List.mem_replicate, not_or]
  exact ⟨by decide, by decide, fun h0 => absurd h0.2 (by decide), h⟩

theorem pointed_no_less (l : List Char) (n : Nat) (h : '<' ∉ l) :
    '<' ∉ l.take n ++ '.' :: l.drop n := by
  simp only [List.mem_cons, List.mem_append, not_or]
  exact ⟨fun h0 => h (List.mem_of_mem_take h0), by decide,
    fun h0 => h (List.mem_of_mem_drop h0)⟩

theorem signed_no_less (l : List Char) (h : '<' ∉ l) : '<' ∉ '-' :: l := by
  simp only [List.mem_cons, not_or]
  exact ⟨by decide, h⟩

theorem Dec.String_no_less (d : Dec) : '<' ∉ d.String.data := by
  unfold Dec.String
  simp only
  split_ifs
  · exact signed_no_less _ (padded_no_less _ _ (MarshalText_no_less _))
  · exact signed_no_less _ (pointed_no_less _ _ (MarshalText_no_less _))
  · exact padded_no_less _ _ (MarshalText_no_less _)
  · exact pointed_no_less _ _ (MarshalText_no_less _)

theorem Occurs.mem_data {sub s : String} (h : Occurs sub s) (c : Char)
    (hc : c ∈ sub.data) : c ∈ s.data := by
  obtain ⟨pre, post, rfl⟩ := h
  simp [String.data_append, hc]

theorem Occurs.of_parts (pre sub post : String) : Occurs sub (pre ++ sub ++ post) :=
  ⟨pre, post, rfl⟩

/-- No accepted or rejected outcome other than the `<= 1` one carries a `<`. -/
theorem validate_less_free (p : Params) (msg : String)
    (h2 : p.GoalBonded.GT OneDec = false) (h : ValidateParams p = some msg) :
    '<' ∉ msg.data := by
  cases h1 : p.GoalBonded.IsNegative
  · cases h3 : p.InflationMax.LT p.InflationMin
    · by_cases h4 : p.MintDenom = ""
      · rw [validate_denom p h1 h2 h3 h4] at h
        cases h
        decide
      · rw [validate_ok p h1 h2 h3 h4] at h
        exact Option.noConfusion h
    · rw [validate_range p h1 h2 h3] at h
      cases h
      decide
  · rw [validate_negative p h1] at h
    cases h
    simp only [String.data_append, List.mem_append, not_or]
    exact ⟨⟨by decide, Dec.String_no_less _⟩, by decide⟩

/-! ## The validator -/

/-- C1: `ValidateParams` returns nil exactly when `0 <= GoalBonded <= 1`,
`InflationMax >= InflationMin` and `MintDenom` is not empty; the boundary values
`GoalBonded = 0`, `GoalBonded = 1` and `InflationMax = InflationMin` are
accepted, and nothing else can make it fail. -/
theorem ValidateParams_nil_iff_checks :
    (∀ p : Params, ValidateParams p = none ↔
      (0 ≤ p.GoalBonded.toRat ∧ p.GoalBonded.toRat ≤ 1) ∧
        p.InflationMax.toRat ≥ p.InflationMin.toRat ∧ p.MintDenom ≠ "") ∧
    (∀ p : Params, p.InflationMax.toRat ≥ p.InflationMin.toRat → p.MintDenom ≠ "" →
      (p.GoalBonded.toRat = 0 ∨ p.GoalBonded.toRat = 1) → ValidateParams p = none) ∧
    (∀ p : Params, 0 ≤ p.GoalBonded.toRat → p.GoalBonded.toRat ≤ 1 → p.MintDenom ≠ "" →
      p.InflationMax.toRat = p.InflationMin.toRat → ValidateParams p = none) := by
  refine ⟨fun p => ?_, fun p hr hd hg => ?_, fun p h0 h1 hd hr => ?_⟩
  · rw [validate_nil_iff, and_assoc]
  · rw [validate_nil_iff]
    rcases hg with hg | hg <;> rw [hg] <;> exact ⟨by norm_num, by norm_num, hr, hd⟩
  · rw [validate_nil_iff]
    exact ⟨h0, h1, hr.ge, hd⟩

/-- C1 at a concrete input: the boundary set is accepted, by each part. -/
theorem ValidateParams_nil_iff_checks_witness :
    ((0 ≤ sampleBoundary.GoalBonded.toRat ∧ sampleBoundary.GoalBonded.toRat ≤ 1) ∧
      sampleBoundary.InflationMax.toRat ≥ sampleBoundary.InflationMin.toRat ∧
      sampleBoundary.MintDenom ≠ "") ∧
    ValidateParams sampleBoundary = none ∧ ValidateParams sampleBoundary = none ∧
    ValidateParams sampleBoundary = none :=
  have hg : sampleBoundary.GoalBonded.toRat = 1 := Dec.toRat_one
  have hd : sampleBoundary.MintDenom ≠ "" := by decide
  have hr : sampleBoundary.InflationMax.toRat = sampleBoundary.InflationMin.toRat := rfl
  ⟨(ValidateParams_nil_iff_checks.1 sampleBoundary).1 (by decide),
    (ValidateParams_nil_iff_checks.1 sampleBoundary).2
      ⟨⟨hg ▸ zero_le_one, hg.le⟩, hr.ge, hd⟩,
    ValidateParams_nil_iff_checks.2.1 sampleBoundary hr.ge hd (Or.inr hg),
    ValidateParams_nil_iff_checks.2.2 sampleBoundary (hg ▸ zero_le_one) hg.le hd hr⟩

/-- C2: when `GoalBonded` is negative `ValidateParams` fails with the
`positive` message, which holds the word `positive` and the rendered
`GoalBonded`, whatever the other five fields are. -/
theorem ValidateParams_negative_goal (p : Params) (h : p.GoalBonded.toRat < 0) :
    ValidateParams p =
        some ("mint parameter GoalBonded should be positive, is " ++ p.GoalBonded.String ++ " ") ∧
      ∀ msg : String, ValidateParams p = some msg →
        Occurs "positive" msg ∧ Occurs p.GoalBonded.String msg := by
  have hv := validate_negative p ((Dec.isNegative_iff _).mpr h)
  refine ⟨hv, fun msg hm => ?_⟩
  rw [hv] at hm
  cases hm
  refine ⟨⟨"mint parameter GoalBonded should be ", ", is " ++ p.GoalBonded.String ++ " ", ?_⟩,
    Occurs.of_parts _ _ _⟩
  have hsplit : "mint parameter GoalBonded should be positive, is " =
      "mint parameter GoalBonded should be " ++ "positive" ++ ", is " := by decide
  rw [hsplit]
  simp only [String.append_assoc]

/-- C2 at `GoalBonded = -0.01`, with an inverted range and an empty denomination. -/
theorem ValidateParams_negative_goal_witness :
    sampleNegative.GoalBonded.toRat < 0 ∧
      ValidateParams sampleNegative =
        some "mint parameter GoalBonded should be positive, is -0.010000000000000000 " :=
  have h : sampleNegative.GoalBonded.toRat < 0 :=
    (Dec.isNegative_iff _).mp (by decide)
  ⟨h, (ValidateParams_negative_goal sampleNegative h).1.trans (by decide)⟩

/-- C3: when `GoalBonded` is greater than 1 `ValidateParams` fails with the
message holding `must be <= 1`, whatever the other five fields are; and no
outcome holds that text when `GoalBonded <= 1`. -/
theorem ValidateParams_goal_above_one :
    (∀ p : Params, 1 < p.GoalBonded.toRat →
      ValidateParams p =
          some ("mint parameter GoalBonded must be <= 1, is " ++ p.GoalBonded.String) ∧
        ∀ msg : String, ValidateParams p = some msg → Occurs "must be <= 1" msg) ∧
    (∀ (p : Params) (msg : String), p.GoalBonded.toRat ≤ 1 →
      ValidateParams p = some msg → ¬ Occurs "must be <= 1" msg) := by
  refine ⟨fun p h => ?_, fun p msg h hm ho => ?_⟩
  · have h1 : p.GoalBonded.IsNegative = false :=
      (Dec.isNegative_false_iff _).mpr (zero_le_one.trans h.le)
    have hv := validate_above_one p h1 ((Dec.gt_one_iff _).mpr h)
    refine ⟨hv, fun msg hm => ?_⟩
    rw [hv] at hm
    cases hm
    refine ⟨"mint parameter GoalBonded ", ", is " ++ p.GoalBonded.String, ?_⟩
    have hsplit : "mint parameter GoalBonded must be <= 1, is " =
        "mint parameter GoalBonded " ++ "must be <= 1" ++ ", is " := by decide
    rw [hsplit]
    simp only [String.append_assoc]
  · exact validate_less_free p msg ((Dec.gt_one_false_iff _).mpr h) hm
      (ho.mem_data '<' (by decide))

/-- C3 at `GoalBonded = 1.01` with an inverted range and an empty denomination,
and at `GoalBonded = -0.01`, whose failure does not hold `must be <= 1`. -/
theorem ValidateParams_goal_above_one_witness :
    1 < sampleAbove.GoalBonded.toRat ∧
      ValidateParams sampleAbove =
        some "mint parameter GoalBonded must be <= 1, is 1.010000000000000000" ∧
      sampleNegative.GoalBonded.toRat ≤ 1 ∧
      ¬ Occurs "must be <= 1"
        "mint parameter GoalBonded should be positive, is -0.010000000000000000 " :=
  have h : 1 < sampleAbove.GoalBonded.toRat := (Dec.gt_one_iff _).mp (by decide)
  have h2 : sampleNegative.GoalBonded.toRat ≤ 1 := (Dec.gt_one_false_iff _).mp (by decide)
  ⟨h, (ValidateParams_goal_above_one.1 sampleAbove h).1.trans (by decide), h2,
    ValidateParams_goal_above_one.2 sampleNegative _ h2 (by decide)⟩

/-- C4: when `InflationMax` is less than `InflationMin` `ValidateParams` fails;
when moreover `0 <= GoalBonded <= 1` the failure is the range-order message,
also for an empty `MintDenom`. -/
theorem ValidateParams_inverted_range :
    (∀ p : Params, p.InflationMax.toRat < p.InflationMin.toRat → ValidateParams p ≠ none) ∧
    (∀ p : Params, p.InflationMax.toRat < p.InflationMin.toRat →
      0 ≤ p.GoalBonded.toRat → p.GoalBonded.toRat ≤ 1 →
      ValidateParams p =
        some "mint parameter Max inflation must be greater than or equal to min inflation") := by
  refine ⟨fun p h hn => ?_, fun p h h0 h1 => ?_⟩
  · exact absurd ((validate_nil_iff p).mp hn).2.2.1 (not_le.mpr h)
  · exact validate_range p ((Dec.isNegative_false_iff _).mpr h0)
      ((Dec.gt_one_false_iff _).mpr h1) ((Dec.lt_iff _ _).mpr h)

/-- C4 at `InflationMax = 0.05`, `InflationMin = 0.10`, `GoalBonded = 0.67` and
an empty denomination. -/
theorem ValidateParams_inverted_range_witness :
    sampleRange.InflationMax.toRat < sampleRange.InflationMin.toRat ∧
      sampleRange.MintDenom = "" ∧ ValidateParams sampleRange ≠ none ∧
      ValidateParams sampleRange =
        some "mint parameter Max inflation must be greater than or equal to min inflation" :=
  have h : sampleRange.InflationMax.toRat < sampleRange.InflationMin.toRat :=
    (Dec.lt_iff _ _).mp (by decide)
  ⟨h, rfl, ValidateParams_inverted_range.1 sampleRange h,
    ValidateParams_inverted_range.2 sampleRange h
      ((Dec.isNegative_false_iff _).mp (by decide)) ((Dec.gt_one_false_iff _).mp (by decide))⟩

/-- C5: when `MintDenom` is the empty string `ValidateParams` fails whatever the
other fields are; when the other checks pass the failure is the denomination
message. -/
theorem ValidateParams_empty_denom :
    (∀ p : Params, p.MintDenom = "" → ValidateParams p ≠ none) ∧
    (∀ p : Params, p.MintDenom = "" → 0 ≤ p.GoalBonded.toRat → p.GoalBonded.toRat ≤ 1 →
      p.InflationMax.toRat ≥ p.InflationMin.toRat →
      ValidateParams p = some "mint parameter MintDenom can't be an empty string") := by
  refine ⟨fun p h hn => ?_, fun p h h0 h1 hr => ?_⟩
  · exact ((validate_nil_iff p).mp hn).2.2.2 h
  · exact validate_denom p ((Dec.isNegative_false_iff _).mpr h0)
      ((Dec.gt_one_false_iff _).mpr h1) ((Dec.lt_false_iff _ _).mpr hr) h

/-- C5 at a set whose only defect is the empty denomination, and at one that
is invalid in every checked field. -/
theorem ValidateParams_empty_denom_witness :
    sampleDenom.MintDenom = "" ∧
      ValidateParams sampleDenom = some "mint parameter MintDenom can't be an empty string" ∧
      ValidateParams sampleNegative ≠ none :=
  ⟨rfl,
    ValidateParams_empty_denom.2 sampleDenom rfl
      ((Dec.isNegative_false_iff _).mp (by decide)) ((Dec.gt_one_false_iff _).mp (by decide))
      ((Dec.lt_false_iff _ _).mp (by decide)),
    ValidateParams_empty_denom.1 sampleNegative rfl⟩

/-- C6: the outcome of `ValidateParams` does not depend on `InflationRateChange`
or `BlocksPerYear`: two sets that agree on the other four fields get the same
result. A set with `BlocksPerYear = 0`, a negative `InflationRateChange`, or
negative `InflationMax` and `InflationMin`, is accepted when the four checked
conditions hold. -/
theorem ValidateParams_ignores_unchecked :
    (∀ p q : Params, p.MintDenom = q.MintDenom → p.InflationMax = q.InflationMax →
      p.InflationMin = q.InflationMin → p.GoalBonded = q.GoalBonded →
      ValidateParams p = ValidateParams q) ∧
    (∀ p : Params, 0 ≤ p.GoalBonded.toRat → p.GoalBonded.toRat ≤ 1 →
      p.InflationMax.toRat ≥ p.InflationMin.toRat → p.MintDenom ≠ "" →
      (p.BlocksPerYear = 0 ∨ p.InflationRateChange.toRat < 0 ∨
        (p.InflationMax.toRat < 0 ∧ p.InflationMin.toRat < 0)) →
      ValidateParams p = none) := by
  refine ⟨fun p q hd hx hn hg => ?_, fun p h0 h1 hr hd _ => ?_⟩
  · unfold ValidateParams
    rw [hd, hx, hn, hg]
  · exact (validate_nil_iff p).mpr ⟨h0, h1, hr, hd⟩

/-- C6 at a set with `BlocksPerYear = 0` and negative rates, and at the same set
with the two unchecked fields replaced. -/
theorem ValidateParams_ignores_unchecked_witness :
    (sampleUnchecked.BlocksPerYear = 0 ∧ sampleUnchecked.InflationRateChange.toRat < 0 ∧
      sampleUnchecked.InflationMax.toRat < 0 ∧ sampleUnchecked.InflationMin.toRat < 0) ∧
    ValidateParams sampleUnchecked = none ∧
    ValidateParams sampleUnchecked =
      ValidateParams { sampleUnchecked with InflationRateChange := OneDec, BlocksPerYear := 7 } :=
  have hi : sampleUnchecked.InflationRateChange.toRat < 0 := (Dec.isNegative_iff _).mp (by decide)
  have hx : sampleUnchecked.InflationMax.toRat < 0 := (Dec.isNegative_iff _).mp (by decide)
  have hn : sampleUnchecked.InflationMin.toRat < 0 := (Dec.isNegative_iff _).mp (by decide)
  ⟨⟨rfl, hi, hx, hn⟩,
    ValidateParams_ignores_unchecked.2 sampleUnchecked
      ((Dec.isNegative_false_iff _).mp (by decide)) ((Dec.gt_one_false_iff _).mp (by decide))
      ((Dec.lt_false_iff _ _).mp (by decide)) (by decide) (Or.inl rfl),
    ValidateParams_ignores_unchecked.1 sampleUnchecked _ rfl rfl rfl rfl⟩

/-! ## Construction and defaults -/

/-- C7: `DefaultParams` has `BlocksPerYear = 6311520`, the exact integer
quotient `60*60*8766/5` (`31557600` is a multiple of 5), the rates
`InflationRateChange = 13/100`, `InflationMax = 20/100`, `InflationMin = 7/100`,
`GoalBonded = 67/100` as exact decimals, and the bond denomination as `MintDenom`. -/
theorem DefaultParams_values (DefaultBondDenom : String) :
    (DefaultParams DefaultBondDenom).BlocksPerYear = 6311520 ∧
    60 * 60 * 8766 = 31557600 ∧ 31557600 % 5 = 0 ∧
    (DefaultParams DefaultBondDenom).BlocksPerYear * 5 = 60 * 60 * 8766 ∧
    (DefaultParams DefaultBondDenom).InflationRateChange.toRat = 13 / 100 ∧
    (DefaultParams DefaultBondDenom).InflationMax.toRat = 20 / 100 ∧
    (DefaultParams DefaultBondDenom).InflationMin.toRat = 7 / 100 ∧
    (DefaultParams DefaultBondDenom).GoalBonded.toRat = 67 / 100 ∧
    (DefaultParams DefaultBondDenom).MintDenom = DefaultBondDenom := by
  refine ⟨?_, by norm_num, by norm_num, ?_, ?_, ?_, ?_, ?_, rfl⟩ <;>
    norm_num [DefaultParams, NewDecWithPrec, Dec.toRat, Precision]

/-- C10: `NewParams` checks nothing and always returns: each field of the result
is the argument of the same name, in argument order; so some arguments (an empty
`mintDenom`, `goalBonded = 1.01`) give a set that `ValidateParams` rejects. -/
theorem NewParams_fields :
    (∀ (mintDenom : String) (inflationRateChange inflationMax inflationMin goalBonded : Dec)
        (blocksPerYear : Nat),
      NewParams mintDenom inflationRateChange inflationMax inflationMin goalBonded
          blocksPerYear =
        ⟨mintDenom, inflationRateChange, inflationMax, inflationMin, goalBonded,
          blocksPerYear⟩ ∧
      (NewParams mintDenom inflationRateChange inflationMax inflationMin goalBonded
          blocksPerYear).MintDenom = mintDenom ∧
      (NewParams mintDenom inflationRateChange inflationMax inflationMin goalBonded
          blocksPerYear).InflationRateChange = inflationRateChange ∧
      (NewParams mintDenom inflationRateChange inflationMax inflationMin goalBonded
          blocksPerYear).InflationMax = inflationMax ∧
      (NewParams mintDenom inflationRateChange inflationMax inflationMin goalBonded
          blocksPerYear).InflationMin = inflationMin ∧
      (NewParams mintDenom inflationRateChange inflationMax inflationMin goalBonded
          blocksPerYear).GoalBonded = goalBonded ∧
      (NewParams mintDenom inflationRateChange inflationMax inflationMin goalBonded
          blocksPerYear).BlocksPerYear = blocksPerYear) ∧
    ValidateParams (NewParams "" (NewDecWithPrec 13 2 (by decide))
        (NewDecWithPrec 20 2 (by decide)) (NewDecWithPrec 7 2 (by decide))
        (NewDecWithPrec 67 2 (by decide)) 6311520) =
      some "mint parameter MintDenom can't be an empty string" ∧
    ValidateParams (NewParams "umdu" (NewDecWithPrec 13 2 (by decide))
        (NewDecWithPrec 20 2 (by decide)) (NewDecWithPrec 7 2 (by decide))
        (NewDecWithPrec 101 2 (by decide)) 6311520) =
      some "mint parameter GoalBonded must be <= 1, is 1.010000000000000000" := by
  refine ⟨fun _ _ _ _ _ _ => ⟨rfl, rfl, rfl, rfl, rfl, rfl, rfl⟩, by decide, by decide⟩

/-! ## The bootstrap override table and the token ceiling -/

theorem FixupInflation_outside (year : ℤ) (h : year < 0 ∨ 6 < year) :
    FixupInflation year = none := by
  have h0 : (year == 0) = false := beq_false_of_ne (by omega)
  have h1 : (year == 1) = false := beq_false_of_ne (by omega)
  have h2 : (year == 2) = false := beq_false_of_ne (by omega)
  have h3 : (year == 3) = false := beq_false_of_ne (by omega)
  have h4 : (year == 4) = false := beq_false_of_ne (by omega)
  have h5 : (year == 5) = false := beq_false_of_ne (by omega)
  have h6 : (year == 6) = false := beq_false_of_ne (by omega)
  simp only [FixupInflation, FixupInflationEntries, List.lookup, h0, h1, h2, h3, h4, h5, h6]

theorem toRat_NewDecWithPrec_four (i : ℤ) (h : 4 ≤ Precision) :
    (NewDecWithPrec i 4 h).toRat = (i : ℚ) / 10000 := by
  norm_num [NewDecWithPrec, Dec.toRat, Precision]
  ring

/-- C8: the override table `FixupInflation` has exactly the year indices `0..6`
as its domain, maps them to `0.0300`, `0.0250`, `0.0150`, `0.0125`, `0.0100`,
`0.0075` and `0.0000` as exact decimals, and has no entry for any other index,
such as 7 or a negative one. -/
theorem FixupInflation_table :
    FixupInflationEntries.map Prod.fst = [0, 1, 2, 3, 4, 5, 6] ∧
    (∀ year : ℤ, (FixupInflation year).isSome = true ↔ 0 ≤ year ∧ year ≤ 6) ∧
    (FixupInflation 0).map Dec.toRat = some (300 / 10000) ∧
    (FixupInflation 1).map Dec.toRat = some (250 / 10000) ∧
    (FixupInflation 2).map Dec.toRat = some (150 / 10000) ∧
    (FixupInflation 3).map Dec.toRat = some (125 / 10000) ∧
    (FixupInflation 4).map Dec.toRat = some (100 / 10000) ∧
    (FixupInflation 5).map Dec.toRat = some (75 / 10000) ∧
    (FixupInflation 6).map Dec.toRat = some 0 ∧
    FixupInflation 7 = none ∧
    (∀ year : ℤ, year < 0 ∨ 6 < year → FixupInflation year = none) := by
  refine ⟨by decide, fun year => ⟨fun h => ?_, fun h => ?_⟩, ?_, ?_, ?_, ?_, ?_, ?_, ?_,
    by decide, FixupInflation_outside⟩
  · by_contra hc
    rw [FixupInflation_outside year (by omega)] at h
    exact Bool.noConfusion h
  · obtain ⟨h0, h6⟩ := h
    interval_cases year <;> decide
  · rw [show FixupInflation 0 = some (NewDecWithPrec 300 4 (by decide)) by decide,
      Option.map_some', toRat_NewDecWithPrec_four]; norm_num
  · rw [show FixupInflation 1 = some (NewDecWithPrec 250 4 (by decide)) by decide,
      Option.map_some', toRat_NewDecWithPrec_four]; norm_num
  · rw [show FixupInflation 2 = some (NewDecWithPrec 150 4 (by decide)) by decide,
      Option.map_some', toRat_NewDecWithPrec_four]; norm_num
  · rw [show FixupInflation 3 = some (NewDecWithPrec 125 4 (by decide)) by decide,
      Option.map_some', toRat_NewDecWithPrec_four]; norm_num
  · rw [show FixupInflation 4 = some (NewDecWithPrec 100 4 (by decide)) by decide,
      Option.map_some', toRat_NewDecWithPrec_four]; norm_num
  · rw [show FixupInflation 5 = some (NewDecWithPrec 75 4 (by decide)) by decide,
      Option.map_some', toRat_NewDecWithPrec_four]; norm_num
  · rw [show FixupInflation 6 = some (NewDecWithPrec 0 4 (by decide)) by decide,
      Option.map_some', toRat_NewDecWithPrec_four]; norm_num

/-- C8 at the indices 7 and -1, which have no entry. -/
theorem FixupInflation_table_witness :
    FixupInflation 7 = none ∧ FixupInflation (-1) = none :=
  ⟨FixupInflation_table.2.2.2.2.2.2.2.2.2.2 7 (Or.inr (by decide)),
    FixupInflation_table.2.2.2.2.2.2.2.2.2.2 (-1) (Or.inl (by decide))⟩

/-- C9: the total token ceiling `FixupTotalTokenNumber` is exactly
`200000000000000 = 200000000 * 10^6`, and the product `200000000 * 1000000`
lies in the signed 64-bit range, so the conversion to `int64` does not wrap. -/
theorem FixupTotalTokenNumber_value :
    FixupTotalTokenNumber = 200000000000000 ∧
    FixupTotalTokenNumber = 200000000 * 10 ^ 6 ∧
    (-(2 : ℤ) ^ 63 ≤ 200000000 * 1000000 ∧ (200000000 * 1000000 : ℤ) < 2 ^ 63) ∧
    toInt64 (200000000 * 1000000) = 200000000 * 1000000 := by
  refine ⟨?_, ?_, ⟨?_, ?_⟩, ?_⟩ <;> norm_num [FixupTotalTokenNumber, NewInt, toInt64]

/-! ## The key mapping -/

/-- C11: `ParamSetPairs` returns exactly six pairs, in the order `MintDenom`,
`InflationRateChange`, `InflationMax`, `InflationMin`, `GoalBonded`,
`BlocksPerYear`; the keys are those six byte strings, pairwise distinct; the
reference paired with key `K` reads the field named `K`, and every field is
bound exactly once. -/
theorem ParamSetPairs_six_pairs :
    ParamSetPairs.length = 6 ∧
    ParamSetPairs.map ParamSetPair.Key =
      ["MintDenom", "InflationRateChange", "InflationMax", "InflationMin", "GoalBonded",
        "BlocksPerYear"] ∧
    (ParamSetPairs.map ParamSetPair.Key).Nodup ∧
    (ParamSetPairs.map ParamSetPair.Value).Nodup ∧
    (∀ r : FieldPtr, r ∈ ParamSetPairs.map ParamSetPair.Value) ∧
    refOfKey "MintDenom" = some .MintDenom ∧
    refOfKey "InflationRateChange" = some .InflationRateChange ∧
    refOfKey "InflationMax" = some .InflationMax ∧
    refOfKey "InflationMin" = some .InflationMin ∧
    refOfKey "GoalBonded" = some .GoalBonded ∧
    refOfKey "BlocksPerYear" = some .BlocksPerYear ∧
    (∀ key : String, (refOfKey key).isSome = true →
      key ∈ ParamSetPairs.map ParamSetPair.Key) ∧
    (∀ p : Params,
      FieldPtr.load p .MintDenom = p.MintDenom ∧
      FieldPtr.load p .InflationRateChange = p.InflationRateChange ∧
      FieldPtr.load p .InflationMax = p.InflationMax ∧
      FieldPtr.load p .InflationMin = p.InflationMin ∧
      FieldPtr.load p .GoalBonded = p.GoalBonded ∧
      FieldPtr.load p .BlocksPerYear = p.BlocksPerYear) := by
  refine ⟨rfl, by decide, by decide, by decide, fun r => by cases r <;> decide,
    by decide, by decide, by decide, by decide, by decide, by decide, fun key h => ?_,
    fun p => ⟨rfl, rfl, rfl, rfl, rfl, rfl⟩⟩
  unfold refOfKey at h
  rw [Option.isSome_map', List.find?_isSome] at h
  obtain ⟨kv, hkv, hk⟩ := h
  exact List.mem_map.mpr ⟨kv, hkv, of_decide_eq_true hk⟩

/-- C11 at a key outside the mapping and at the key `GoalBonded`. -/
theorem ParamSetPairs_six_pairs_witness :
    refOfKey "goal_bonded" = none ∧
      "GoalBonded" ∈ ParamSetPairs.map ParamSetPair.Key :=
  ⟨by decide, ParamSetPairs_six_pairs.2.2.2.2.2.2.2.2.2.2.2.1 "GoalBonded" (by decide)⟩

theorem store_load_same (p : Params) (r : FieldPtr) (v : r.Elem) :
    FieldPtr.load (FieldPtr.store p r v) r = v := by
  cases r <;> rfl

theorem store_load_other (p : Params) (r r' : FieldPtr) (v : r.Elem) (h : r' ≠ r) :
    FieldPtr.load (FieldPtr.store p r v) r' = FieldPtr.load p r' := by
  cases r <;> cases r' <;> first | rfl | exact absurd rfl h

/-- C12: key-mapping round trip: reading the six fields of `p` through the
references of `ParamSetPairs` and writing the values back through the same
references, into `p` or into any other `q`, gives a record equal to `p` in all
six fields. -/
theorem ParamSetPairs_round_trip :
    (∀ p q : Params, writeBack p q = p ∧
      (writeBack p q).MintDenom = p.MintDenom ∧
      (writeBack p q).InflationRateChange = p.InflationRateChange ∧
      (writeBack p q).InflationMax = p.InflationMax ∧
      (writeBack p q).InflationMin = p.InflationMin ∧
      (writeBack p q).GoalBonded = p.GoalBonded ∧
      (writeBack p q).BlocksPerYear = p.BlocksPerYear) ∧
    (∀ p : Params, writeBack p p = p) ∧
    (∀ (p : Params) (r : FieldPtr), FieldPtr.store p r (FieldPtr.load p r) = p) := by
  have h : ∀ p q : Params, writeBack p q = p := fun p q => by cases p; cases q; rfl
  refine ⟨fun p q => ?_, fun p => h p p, fun p r => by cases p; cases r <;> rfl⟩
  rw [h p q]
  exact ⟨rfl, rfl, rfl, rfl, rfl, rfl, rfl⟩

/-- C13: writing `v` through the reference paired with a key sets the field of
that name to `v` and leaves the other five fields as they were; a write is not
validated, so it can turn an accepted set into one `ValidateParams` rejects. -/
theorem ParamSetPairs_write_frame :
    (∀ (p : Params) (r : FieldPtr) (v : r.Elem),
      FieldPtr.load (FieldPtr.store p r v) r = v ∧
      ∀ r' : FieldPtr, r' ≠ r → FieldPtr.load (FieldPtr.store p r v) r' = FieldPtr.load p r') ∧
    (∀ (p : Params) (v : String), refOfKey "MintDenom" = some .MintDenom ∧
      FieldPtr.store p .MintDenom v =
        ⟨v, p.InflationRateChange, p.InflationMax, p.InflationMin, p.GoalBonded,
          p.BlocksPerYear⟩) ∧
    (∀ (p : Params) (v : Dec), refOfKey "InflationRateChange" = some .InflationRateChange ∧
      FieldPtr.store p .InflationRateChange v =
        ⟨p.MintDenom, v, p.InflationMax, p.InflationMin, p.GoalBonded, p.BlocksPerYear⟩) ∧
    (∀ (p : Params) (v : Dec), refOfKey "InflationMax" = some .InflationMax ∧
      FieldPtr.store p .InflationMax v =
        ⟨p.MintDenom, p.InflationRateChange, v, p.InflationMin, p.GoalBonded,
          p.BlocksPerYear⟩) ∧
    (∀ (p : Params) (v : Dec), refOfKey "InflationMin" = some .InflationMin ∧
      FieldPtr.store p .InflationMin v =
        ⟨p.MintDenom, p.InflationRateChange, p.InflationMax, v, p.GoalBonded,
          p.BlocksPerYear⟩) ∧
    (∀ (p : Params) (v : Dec), refOfKey "GoalBonded" = some .GoalBonded ∧
      FieldPtr.store p .GoalBonded v =
        ⟨p.MintDenom, p.InflationRateChange, p.InflationMax, p.InflationMin, v,
          p.BlocksPerYear⟩) ∧
    (∀ (p : Params) (v : Nat), refOfKey "BlocksPerYear" = some .BlocksPerYear ∧
      FieldPtr.store p .BlocksPerYear v =
        ⟨p.MintDenom, p.InflationRateChange, p.InflationMax, p.InflationMin, p.GoalBonded,
          v⟩) ∧
    (ValidateParams sampleBoundary = none ∧
      ValidateParams (FieldPtr.store sampleBoundary .MintDenom "") =
        some "mint parameter MintDenom can't be an empty string" ∧
      ValidateParams (FieldPtr.store sampleBoundary .InflationMin OneDec) =
        some "mint parameter Max inflation must be greater than or equal to min inflation") := by
  refine ⟨fun p r v => ⟨store_load_same p r v, fun r' h => store_load_other p r r' v h⟩,
    fun p v => ⟨by decide, rfl⟩, fun p v => ⟨by decide, rfl⟩, fun p v => ⟨by decide, rfl⟩,
    fun p v => ⟨by decide, rfl⟩, fun p v => ⟨by decide, rfl⟩, fun p v => ⟨by decide, rfl⟩,
    by decide, by decide, by decide⟩

/-- C13 at a write of `InflationMax`, read back through `InflationMin`. -/
theorem ParamSetPairs_write_frame_witness :
    FieldPtr.load (FieldPtr.store sampleRange .InflationMax OneDec) .InflationMin =
      sampleRange.InflationMin :=
  (ParamSetPairs_write_frame.1 sampleRange .InflationMax OneDec).2 .InflationMin (by decide)

/-! ## Rendering -/

theorem ite_mem_list {c : Prop} [Decidable c] {a b : Char} {l : List Char} (ha : a ∈ l)
    (hb : b ∈ l) : (if c then a else b) ∈ l := by
  split <;> assumption

theorem digitChar_mem_alphabet (n : Nat) : Nat.digitChar n ∈ decimalAlphabet := by
  unfold Nat.digitChar
  repeat' (first | decide | apply ite_mem_list)

theorem toDigitsCore_alphabet (f : Nat) : ∀ (n : Nat) (ds : List Char),
    (∀ c ∈ ds, c ∈ decimalAlphabet) →
      ∀ c ∈ Nat.toDigitsCore 10 f n ds, c ∈ decimalAlphabet := by
  induction f with
  | zero => intro n ds h; simpa [Nat.toDigitsCore] using h
  | succ f ih =>
    intro n ds h
    have hcons : ∀ c ∈ Nat.digitChar (n % 10) :: ds, c ∈ decimalAlphabet := by
      intro c hc
      rcases List.mem_cons.mp hc with rfl | hc
      · exact digitChar_mem_alphabet _
      · exact h c hc
    simp only [Nat.toDigitsCore]
    split_ifs
    · exact hcons
    · exact ih _ _ hcons

theorem repr_alphabet (n : Nat) : ∀ c ∈ (Nat.repr n).data, c ∈ decimalAlphabet := by
  simpa [Nat.repr, Nat.toDigits, List.asString] using
    toDigitsCore_alphabet (n + 1) n [] (by simp)

theorem MarshalText_alphabet (x : ℤ) : ∀ c ∈ MarshalText x, c ∈ decimalAlphabet := by
  intro c hc
  unfold MarshalText at hc
  split_ifs at hc
  · rcases List.mem_cons.mp hc with rfl | hc
    · decide
    · exact repr_alphabet _ c hc
  · exact repr_alphabet _ c hc

theorem padded_alphabet (l : List Char) (n : Nat) (h : ∀ c ∈ l, c ∈ decimalAlphabet) :
    ∀ c ∈ '0' :: '.' :: (List.replicate n '0' ++ l), c ∈ decimalAlphabet := by
  intro c hc
  simp only [List.mem_cons, List.mem_append, List.mem_replicate] at hc
  rcases hc with rfl | rfl | ⟨_, rfl⟩ | hc
  · decide
  · decide
  · decide
  · exact h c hc

theorem pointed_alphabet (l : List Char) (n : Nat) (h : ∀ c ∈ l, c ∈ decimalAlphabet) :
    ∀ c ∈ l.take n ++ '.' :: l.drop n, c ∈ decimalAlphabet := by
  intro c hc
  simp only [List.mem_cons, List.mem_append] at hc
  rcases hc with hc | rfl | hc
  · exact h c (List.mem_of_mem_take hc)
  · decide
  · exact h c (List.mem_of_mem_drop hc)

theorem signed_alphabet (l : List Char) (h : ∀ c ∈ l, c ∈ decimalAlphabet) :
    ∀ c ∈ '-' :: l, c ∈ decimalAlphabet := by
  intro c hc
  rcases List.mem_cons.mp hc with rfl | hc
  · decide
  · exact h c hc

theorem Dec.String_alphabet (d : Dec) : ∀ c ∈ d.String.data, c ∈ decimalAlphabet := by
  unfold Dec.String
  simp only
  split_ifs
  · exact signed_alphabet _ (padded_alphabet _ _ (MarshalText_alphabet _))
  · exact signed_alphabet _ (pointed_alphabet _ _ (MarshalText_alphabet _))
  · exact padded_alphabet _ _ (MarshalText_alphabet _)
  · exact pointed_alphabet _ _ (MarshalText_alphabet _)

theorem no_feed_of_alphabet {l : List Char} (h : ∀ c ∈ l, c ∈ decimalAlphabet) : '\n' ∉ l :=
  fun hc => absurd (h _ hc) (by decide)

/-- The shape of the format of `Params.String`, for any header, labels,
renderings and separator. -/
theorem template_data (nl : String) (x : Char) (hnl : nl.data = [x])
    (h l1 a1 l2 a2 l3 a3 l4 a4 l5 a5 l6 a6 : String) :
    (h ++ nl ++ l1 ++ a1 ++ (nl ++ l2) ++ a2 ++ (nl ++ l3) ++ a3 ++ (nl ++ l4) ++ a4 ++
        (nl ++ l5) ++ a5 ++ (nl ++ l6) ++ a6 ++ nl).data =
      [x].intercalate (h.data ::
        [l1 ++ a1, l2 ++ a2, l3 ++ a3, l4 ++ a4, l5 ++ a5, l6 ++ a6].map String.data ++ [[]]) := by
  simp only [String.data_append, hnl, List.intercalate, List.map, List.cons_append,
    List.nil_append, List.intersperse, List.flatten, List.append_assoc, List.append_nil,
    List.singleton_append]

/-- The text of a parameter set is the header and the six labelled lines, each
ended by a line feed. -/
theorem String_data_eq (p : Params) :
    p.String.data =
      ['\n'].intercalate ("Minting Params:".data :: (labelledLines p).map String.data ++ [[]]) := by
  have e0 : "Minting Params:\n  Mint Denom:             " =
      "Minting Params:" ++ "\n" ++ "  Mint Denom:             " := by decide
  have e1 : "\n  Inflation Rate Change:  " = "\n" ++ "  Inflation Rate Change:  " := by decide
  have e2 : "\n  Inflation Max:          " = "\n" ++ "  Inflation Max:          " := by decide
  have e3 : "\n  Inflation Min:          " = "\n" ++ "  Inflation Min:          " := by decide
  have e4 : "\n  Goal Bonded:            " = "\n" ++ "  Goal Bonded:            " := by decide
  have e5 : "\n  Blocks Per Year:        " = "\n" ++ "  Blocks Per Year:        " := by decide
  unfold Params.String labelledLines
  rw [e0, e1, e2, e3, e4, e5]
  exact template_data "\n" '\n' rfl _ _ _ _ _ _ _ _ _ _ _ _ _

theorem label_line_no_feed (label body : String) (hl : '\n' ∉ label.data)
    (hb : '\n' ∉ body.data) : '\n' ∉ (label ++ body).data := by
  rw [String.data_append, List.mem_append, not_or]
  exact ⟨hl, hb⟩

/-- When the denomination holds no line feed, none of the header, the six
labelled lines and the empty tail holds one. -/
theorem pieces_no_feed (p : Params) (h : '\n' ∉ p.MintDenom.data) :
    ∀ l ∈ "Minting Params:".data :: (labelledLines p).map String.data ++ [[]], '\n' ∉ l := by
  intro l hl
  simp only [labelledLines, List.map, List.cons_append, List.nil_append, List.mem_cons,
    List.mem_singleton] at hl
  rcases hl with rfl | rfl | rfl | rfl | rfl | rfl | rfl | hl
  · decide
  · exact label_line_no_feed _ _ (by decide) h
  · exact label_line_no_feed _ _ (by decide) (no_feed_of_alphabet (Dec.String_alphabet _))
  · exact label_line_no_feed _ _ (by decide) (no_feed_of_alphabet (Dec.String_alphabet _))
  · exact label_line_no_feed _ _ (by decide) (no_feed_of_alphabet (Dec.String_alphabet _))
  · exact label_line_no_feed _ _ (by decide) (no_feed_of_alphabet (Dec.String_alphabet _))
  · exact label_line_no_feed _ _ (by decide) (no_feed_of_alphabet (repr_alphabet _))
  · rcases hl with rfl | hl
    · simp
    · exact absurd hl (List.not_mem_nil _)

/-- C14 as stated fails: with the denomination `a`, line feed, `b` the text of
the default parameters has the header followed by seven lines, not six. -/
theorem String_six_lines_counterexample :
    (lines sampleTwoLine.String).length = 9 ∧
      lines sampleTwoLine.String ≠
        "Minting Params:".data :: (labelledLines sampleTwoLine).map String.data ++ [[]] := by
  decide

/-- C14, amended: the text of a parameter set is a function of it, made of the
header `Minting Params:` and six segments in the order and with the labels
`Mint Denom:`, `Inflation Rate Change:`, `Inflation Max:`, `Inflation Min:`,
`Goal Bonded:`, `Blocks Per Year:`, each followed by the rendering of the field
of that name and ended by a line feed; when `MintDenom` holds no line feed these
segments are exactly the six lines after the header. -/
theorem String_labelled_lines :
    (∀ p : Params, labelledLines p =
      [ "  Mint Denom:             " ++ p.MintDenom,
        "  Inflation Rate Change:  " ++ p.InflationRateChange.String,
        "  Inflation Max:          " ++ p.InflationMax.String,
        "  Inflation Min:          " ++ p.InflationMin.String,
        "  Goal Bonded:            " ++ p.GoalBonded.String,
        "  Blocks Per Year:        " ++ Nat.repr p.BlocksPerYear ]) ∧
    (∀ p : Params, p.String.data =
      ['\n'].intercalate
        ("Minting Params:".data :: (labelledLines p).map String.data ++ [[]])) ∧
    (∀ p : Params, ∃ body : String, p.String = body ++ "\n") ∧
    (∀ p q : Params, p = q → p.String = q.String) ∧
    (∀ p : Params, '\n' ∉ p.MintDenom.data →
      lines p.String =
        "Minting Params:".data :: (labelledLines p).map String.data ++ [[]]) := by
  refine ⟨fun p => rfl, String_data_eq, fun p => ⟨_, rfl⟩, fun p q h => by rw [h],
    fun p h => ?_⟩
  unfold lines
  rw [String_data_eq]
  exact List.splitOn_intercalate _ '\n' (pieces_no_feed p h) (List.cons_ne_nil _ _)

/-- C14, amended, at the default parameters with the denomination `stake`. -/
theorem String_labelled_lines_witness :
    '\n' ∉ (DefaultParams "stake").MintDenom.data ∧
      lines (DefaultParams "stake").String =
        [ "Minting Params:".data,
          "  Mint Denom:             stake".data,
          "  Inflation Rate Change:  0.130000000000000000".data,
          "  Inflation Max:          0.200000000000000000".data,
          "  Inflation Min:          0.070000000000000000".data,
          "  Goal Bonded:            0.670000000000000000".data,
          "  Blocks Per Year:        6311520".data,
          [] ] :=
  have h : '\n' ∉ (DefaultParams "stake").MintDenom.data := by decide
  ⟨h, (String_labelled_lines.2.2.2.2 (DefaultParams "stake") h).trans (by decide)⟩

/-! ## The defaults against the validator and the override table -/

/-- The default parameter set passes the three checks on the rates for every
bond denomination: `GoalBonded = 0.67` lies between 0 and 1 and
`InflationMax = 0.20` is not below `InflationMin = 0.07`. Whether it is accepted
is then decided by the bond denomination alone, a constant of the SDK that the
model takes as a parameter: it is accepted exactly when that is not empty. -/
theorem DefaultParams_accepted_iff (DefaultBondDenom : String) :
    (ValidateParams (DefaultParams DefaultBondDenom) = none ↔ DefaultBondDenom ≠ "") ∧
    (DefaultParams DefaultBondDenom).GoalBonded.toRat = 67 / 100 ∧
    0 ≤ (DefaultParams DefaultBondDenom).GoalBonded.toRat ∧
    (DefaultParams DefaultBondDenom).GoalBonded.toRat ≤ 1 ∧
    (DefaultParams DefaultBondDenom).InflationMax.toRat = 20 / 100 ∧
    (DefaultParams DefaultBondDenom).InflationMin.toRat = 7 / 100 ∧
    (DefaultParams DefaultBondDenom).InflationMax.toRat ≥
      (DefaultParams DefaultBondDenom).InflationMin.toRat := by
  have hg : (DefaultParams DefaultBondDenom).GoalBonded.toRat = 67 / 100 := by
    norm_num [DefaultParams, NewDecWithPrec, Dec.toRat, Precision]
  have hx : (DefaultParams DefaultBondDenom).InflationMax.toRat = 20 / 100 := by
    norm_num [DefaultParams, NewDecWithPrec, Dec.toRat, Precision]
  have hn : (DefaultParams DefaultBondDenom).InflationMin.toRat = 7 / 100 := by
    norm_num [DefaultParams, NewDecWithPrec, Dec.toRat, Precision]
  have h0 : 0 ≤ (DefaultParams DefaultBondDenom).GoalBonded.toRat := by rw [hg]; norm_num
  have h1 : (DefaultParams DefaultBondDenom).GoalBonded.toRat ≤ 1 := by rw [hg]; norm_num
  have hr : (DefaultParams DefaultBondDenom).InflationMax.toRat ≥
      (DefaultParams DefaultBondDenom).InflationMin.toRat := by rw [hx, hn]; norm_num
  exact ⟨⟨fun h => ((validate_nil_iff _).mp h).2.2.2,
    fun h => (validate_nil_iff _).mpr ⟨h0, h1, hr, h⟩⟩, hg, h0, h1, hx, hn, hr⟩

theorem lookup_mem (l : List (ℤ × Dec)) (k : ℤ) (v : Dec) (h : l.lookup k = some v) :
    (k, v) ∈ l := by
  induction l with
  | nil => simp at h
  | cons hd tl ih =>
    obtain ⟨a, b⟩ := hd
    rw [List.lookup_cons] at h
    by_cases hk : k = a
    · subst hk
      simp only [beq_self_eq_true, Option.some.injEq] at h
      subst h
      exact List.mem_cons_self _ _
    · simp only [beq_false_of_ne hk] at h
      exact List.mem_cons_of_mem _ (ih h)

/-- Every entry of the override table is non-negative, at most the entry of
year 0, and below the default floor and ceiling of the inflation rate. -/
theorem entries_bounds : ∀ e ∈ FixupInflationEntries,
    e.2.IsNegative = false ∧ (NewDecWithPrec 300 4 (by decide)).LT e.2 = false ∧
      e.2.LT (NewDecWithPrec 7 2 (by decide)) = true := by
  decide

/-- C16: the override schedule is strictly decreasing in the year index over
`0..6`, every entry is non-negative and at most `0.03`, and the entry of the
last year, 6, is exactly 0. -/
theorem FixupInflation_strictly_decreasing :
    (∀ i j : ℤ, 0 ≤ i → i < j → j ≤ 6 →
      ∃ a b : Dec, FixupInflation i = some a ∧ FixupInflation j = some b ∧
        a.toRat > b.toRat) ∧
    (∀ (year : ℤ) (r : Dec), FixupInflation year = some r →
      0 ≤ r.toRat ∧ r.toRat ≤ 3 / 100) ∧
    (FixupInflation 6).map Dec.toRat = some 0 := by
  refine ⟨fun i j h0 hij h6 => ?_, fun year r h => ?_, ?_⟩
  · have hi : i ≤ 5 := by omega
    interval_cases i <;> interval_cases j <;>
      exact ⟨_, _, rfl, rfl, (Dec.lt_iff _ _).mp (by decide)⟩
  · obtain ⟨hn, hle, _⟩ := entries_bounds _ (lookup_mem _ _ _ h)
    refine ⟨(Dec.isNegative_false_iff _).mp hn, ?_⟩
    have h3 := (Dec.lt_false_iff _ _).mp hle
    rw [toRat_NewDecWithPrec_four] at h3
    calc r.toRat ≤ ((300 : ℤ) : ℚ) / 10000 := h3
      _ = 3 / 100 := by norm_num
  · rw [show FixupInflation 6 = some (NewDecWithPrec 0 4 (by decide)) by decide,
      Option.map_some', toRat_NewDecWithPrec_four]
    norm_num

/-- C16 at the years 2 and 5, `0.0150 > 0.0075`, and at the entry of year 3. -/
theorem FixupInflation_strictly_decreasing_witness :
    (∃ a b : Dec, FixupInflation 2 = some a ∧ FixupInflation 5 = some b ∧
      a.toRat > b.toRat) ∧
    0 ≤ (NewDecWithPrec 125 4 (by decide)).toRat ∧
    (NewDecWithPrec 125 4 (by decide)).toRat ≤ 3 / 100 :=
  ⟨FixupInflation_strictly_decreasing.1 2 5 (by decide) (by decide) (by decide),
    FixupInflation_strictly_decreasing.2.1 3 _ (by decide)⟩

/-- C17: every rate of the override table, years `0..6`, is strictly below the
default inflation floor `DefaultParams().InflationMin = 0.07`, so it never lies
in the default band from `0.07` to `0.20`. -/
theorem FixupInflation_below_floor (DefaultBondDenom : String) :
    (∀ (year : ℤ) (r : Dec), FixupInflation year = some r →
      r.toRat < (DefaultParams DefaultBondDenom).InflationMin.toRat ∧
      ¬ ((DefaultParams DefaultBondDenom).InflationMin.toRat ≤ r.toRat ∧
        r.toRat ≤ (DefaultParams DefaultBondDenom).InflationMax.toRat)) ∧
    (DefaultParams DefaultBondDenom).InflationMin.toRat = 7 / 100 ∧
    (DefaultParams DefaultBondDenom).InflationMax.toRat = 20 / 100 ∧
    (∀ year : ℤ, 0 ≤ year → year ≤ 6 → (FixupInflation year).isSome = true) := by
  refine ⟨fun year r h => ?_, ?_, ?_, fun year h0 h6 => ?_⟩
  · obtain ⟨_, _, hlt⟩ := entries_bounds _ (lookup_mem _ _ _ h)
    have hr : r.toRat < (DefaultParams DefaultBondDenom).InflationMin.toRat :=
      (Dec.lt_iff _ _).mp hlt
    exact ⟨hr, fun hb => absurd hb.1 (not_le.mpr hr)⟩
  · norm_num [DefaultParams, NewDecWithPrec, Dec.toRat, Precision]
  · norm_num [DefaultParams, NewDecWithPrec, Dec.toRat, Precision]
  · interval_cases year <;> decide

/-- C17 at year 0, the largest rate of the table, `0.03 < 0.07`. -/
theorem FixupInflation_below_floor_witness :
    (NewDecWithPrec 300 4 (by decide)).toRat <
      (DefaultParams "stake").InflationMin.toRat :=
  ((FixupInflation_below_floor "stake").1 0 _ (by decide)).1

end Mint
